import Mathlib

/-!
Shallow embedding of the multi-agent demo application: the keyword
classifier / task planner, the three agent executors in fallback mode
(no completion backend configured), the arithmetic calculator tool, the
LangGraph-style step router, and the result aggregator.

Modelling conventions:
* Python strings are Lean `String`s; `sub in s` is `strIn sub s`
  (contiguous substring test); `str.lower()` is `lowerStr` (ASCII case
  folding, which agrees with Python on all the fixed keyword lists).
* The mutable state dict threaded through the workflow is the structure
  `AgentState`.  The metadata timestamps and the conversation log are
  real-time data outside the model; of the metadata only `total_steps`
  (set by the planner) is kept.  The `agent_results` dict is written
  only under the keys "research"/"analysis"/"writing", so it is a
  record of three `Option String` fields.
* `random.choice` in `data_visualizer` is modelled by an explicit
  random stream `rng : Nat → Fin 4` together with a draw counter
  `rngIdx` in the state.
* Python machine floats are modelled as exact unreduced fractions
  (`Frac`); the decimal literals and arithmetic appearing in the
  verified claims are all exactly representable, where they are not
  the model is an idealisation and is noted at the definition.
-/

/-- `listPre n h` : the list `n` is a prefix of `h` (Boolean). -/
def listPre : List Char → List Char → Bool
  | [], _ => true
  | _ :: _, [] => false
  | a :: as, b :: bs => a == b && listPre as bs

/-- `listSub n h` : the list `n` occurs contiguously inside `h`. -/
def listSub (needle : List Char) : List Char → Bool
  | [] => needle.isEmpty
  | c :: rest => listPre needle (c :: rest) || listSub needle rest

/-- Python `sub in s` on strings: contiguous substring test. -/
def strIn (sub s : String) : Bool := listSub sub.data s.data

/-- Python `s.lower()` (ASCII case folding suffices for this program's
keyword lists and queries). -/
def lowerStr (s : String) : String := String.mk (s.data.map Char.toLower)

/-- A single-quote character as a string (used by the `web_search`
fallback sentence). -/
def quoteCh : String := String.mk [Char.ofNat 39]

/-- The three capability tags of the system (the `"agent"` field of a
plan step; `plan_task` only ever emits these three strings). -/
inductive Tag where
  | research
  | analysis
  | writing
deriving DecidableEq, Repr

/-- One entry of `task_plan`: `{"agent": ..., "task": ...}`. -/
structure PlanStep where
  agent : Tag
  task : String
deriving DecidableEq, Repr

/-- The `agent_results` dict: in the workflow it is written only under
the keys `"research"`, `"analysis"`, `"writing"`. -/
structure AgentResults where
  research : Option String
  analysis : Option String
  writing : Option String
deriving DecidableEq, Repr

/-- The shared state dict threaded through the workflow
(`user_query`, `task_plan`, `agent_results`, `final_result`,
`current_step`, and `metadata["total_steps"]`), plus the draw counter
`rngIdx` for the explicit randomness model. -/
structure AgentState where
  user_query : String
  task_plan : List PlanStep
  agent_results : AgentResults
  final_result : String
  current_step : Nat
  total_steps : Nat
  rngIdx : Nat
deriving DecidableEq, Repr

/-- `research_keywords` of `CoordinatorAgent.plan_task`. -/
def research_keywords : List String :=
  ["what is", "tell me about", "research", "find information", "explain"]

/-- `analysis_keywords` of `CoordinatorAgent.plan_task`. -/
def analysis_keywords : List String :=
  ["calculate", "analyze", "compare", "statistics", "average", "sum", "+", "-", "*", "/"]

/-- `writing_keywords` of `CoordinatorAgent.plan_task`. -/
def writing_keywords : List String :=
  ["write", "create", "generate", "summarize", "report", "document"]

/-- `any(keyword in query.lower() for keyword in kws)`. -/
def keywordHit (query : String) (kws : List String) : Bool :=
  kws.any (fun k => strIn k (lowerStr query))

/-- The plan built by `CoordinatorAgent.plan_task` from the query:
research / analysis / writing steps in that fixed order, one per
matching keyword list, with the fixed default plan when nothing
matches. -/
def planFor (query : String) : List PlanStep :=
  let plan :=
    (if keywordHit query research_keywords then
      [⟨Tag.research, "gather_information"⟩] else []) ++
    (if keywordHit query analysis_keywords then
      [⟨Tag.analysis, "process_data"⟩] else []) ++
    (if keywordHit query writing_keywords then
      [⟨Tag.writing, "create_content"⟩] else [])
  if plan.isEmpty then
    [⟨Tag.research, "gather_information"⟩, ⟨Tag.writing, "create_content"⟩]
  else plan

/-- `CoordinatorAgent.plan_task`: store the plan, reset the cursor to
0, record the plan length in the metadata. -/
def plan_task (s : AgentState) : AgentState :=
  { s with
    task_plan := planFor s.user_query
    current_step := 0
    total_steps := (planFor s.user_query).length }

/-- The labeled research section of the final result. -/
def researchSection (r : String) : String :=
  "📚 **Research Findings:**\n" ++ r

/-- The labeled analysis section of the final result. -/
def analysisSection (r : String) : String :=
  "📊 **Analysis Results:**\n" ++ r

/-- The labeled writing section of the final result. -/
def writingSection (r : String) : String :=
  "✍️ **Generated Content:**\n" ++ r

/-- The `final_parts` list of `CoordinatorAgent.aggregate_results`:
one labeled section per present key, in the fixed order research,
analysis, writing. -/
def finalParts (res : AgentResults) : List String :=
  (match res.research with
    | some r => [researchSection r]
    | none => []) ++
  (match res.analysis with
    | some r => [analysisSection r]
    | none => []) ++
  (match res.writing with
    | some r => [writingSection r]
    | none => [])

/-- `CoordinatorAgent.aggregate_results`: join the labeled sections
with a blank line into `final_result` (the `end_time` timestamp is
outside the model). -/
def aggregate_results (s : AgentState) : AgentState :=
  { s with final_result := String.intercalate "\n\n" (finalParts s.agent_results) }

/-! ### The `advanced_calculator` tool -/

/-- Split a character list at the end of its leading digit run. -/
def takeDigits : List Char → List Char × List Char
  | [] => ([], [])
  | c :: rest =>
    if c.isDigit then
      let (d, r) := takeDigits rest
      (c :: d, r)
    else ([], c :: rest)

/-- One numeric match of the regex `-?\d+\.?\d*` starting at a digit:
the digit run, a dot if one follows, and the digit run after it. -/
def grabNum (cs : List Char) : List Char × List Char :=
  let (ds, r1) := takeDigits cs
  match r1 with
  | '.' :: r2 =>
    let (fs, r3) := takeDigits r2
    (ds ++ '.' :: fs, r3)
  | _ => (ds, r1)

/-- Whether a list starts with a digit. -/
def headDigit : List Char → Bool
  | [] => false
  | c :: _ => c.isDigit

/-- `re.findall(r'-?\d+\.?\d*', ...)`: left-to-right non-overlapping
greedy matches.  The fuel (first argument, one more than the input
length) never runs out: every step consumes at least one character. -/
def scanNumbersF : Nat → List Char → List String
  | 0, _ => []
  | _ + 1, [] => []
  | f + 1, c :: rest =>
    if c.isDigit then
      let (tok, r) := grabNum (c :: rest)
      String.mk tok :: scanNumbersF f r
    else if c == '-' && headDigit rest then
      let (tok, r) := grabNum rest
      String.mk ('-' :: tok) :: scanNumbersF f r
    else scanNumbersF f rest

/-- All matches of `-?\d+\.?\d*` in the expression. -/
def findNumbers (s : String) : List String :=
  scanNumbersF (s.data.length + 1) s.data

/-- Value of a digit run. -/
def digitsVal (cs : List Char) : Nat :=
  cs.foldl (fun acc c => acc * 10 + (c.toNat - 48)) 0

/-- An exact unreduced fraction `num / den` (denominator kept positive
by construction): the model of a Python numeric value.  Python machine
floats are idealised as exact fractions; every literal and every
arithmetic result appearing in the verified claims is exactly
representable.  Fractions are kept unreduced so that all arithmetic is
plain integer arithmetic; semantic equality is `fBeq`. -/
structure Frac where
  num : Int
  den : Nat
deriving DecidableEq, Repr

/-- Semantic (cross-multiplied) equality of fractions. -/
def fBeq (a b : Frac) : Bool := a.num * (b.den : Int) == b.num * (a.den : Int)

/-- Fraction addition. -/
def fAdd (a b : Frac) : Frac :=
  ⟨a.num * (b.den : Int) + b.num * (a.den : Int), a.den * b.den⟩

/-- Fraction subtraction. -/
def fSub (a b : Frac) : Frac :=
  ⟨a.num * (b.den : Int) - b.num * (a.den : Int), a.den * b.den⟩

/-- Fraction negation. -/
def fNeg (a : Frac) : Frac := ⟨-a.num, a.den⟩

/-- Fraction multiplication. -/
def fMul (a b : Frac) : Frac := ⟨a.num * b.num, a.den * b.den⟩

/-- Fraction division (the divisor's sign moves to the numerator so
the denominator stays positive); only called on nonzero divisors. -/
def fDiv (a b : Frac) : Frac :=
  ⟨(if b.num < 0 then -1 else 1) * a.num * (b.den : Int), a.den * b.num.natAbs⟩

/-- Fraction power by a natural exponent. -/
def fPow (a : Frac) (k : Nat) : Frac := ⟨a.num ^ k, a.den ^ k⟩

/-- Floor of a fraction. -/
def fFloor (a : Frac) : Int := Int.fdiv a.num (a.den : Int)

/-- Whether a fraction is zero. -/
def fIsZero (a : Frac) : Bool := a.num == 0

/-- Whether a fraction has an integer value. -/
def fIsIntVal (a : Frac) : Bool := a.num % (a.den : Int) == 0

/-- Value of a fractional digit run (the part after the dot). -/
def fracVal (cs : List Char) : Frac := ⟨digitsVal cs, 10 ^ cs.length⟩

/-- Value of an unsigned numeric token (digits, optional dot, digits). -/
def magVal (cs : List Char) : Frac :=
  let (ds, r) := takeDigits cs
  match r with
  | '.' :: fs =>
    let fs := (takeDigits fs).1
    ⟨digitsVal ds * 10 ^ fs.length + digitsVal fs, 10 ^ fs.length⟩
  | _ => ⟨digitsVal ds, 1⟩

/-- Python `float(token)` on a token matched by `-?\d+\.?\d*`. -/
def numTokenVal (t : String) : Frac :=
  match t.data with
  | '-' :: rest => fNeg (magVal rest)
  | cs => magVal cs

/-- Decimal digits of the proper fraction `r / d` (`0 ≤ r < d`), up to
17 places; every fractional part reached in the verified claims
terminates well before that bound (Python would print the shortest
round-tripping float representation). -/
def fracDigitsN : Nat → Nat → Nat → String
  | 0, _, _ => ""
  | f + 1, r, d =>
    if r = 0 then ""
    else Nat.repr (r * 10 / d) ++ fracDigitsN f (r * 10 % d) d

/-- Python `str` of a float value (`10.0` prints as `"10.0"`, `1.5` as
`"1.5"`). -/
def floatStr (q : Frac) : String :=
  let sign := if q.num < 0 then "-" else ""
  let m := q.num.natAbs
  let i := m / q.den
  let r := m % q.den
  if r = 0 then sign ++ Nat.repr i ++ ".0"
  else sign ++ Nat.repr i ++ "." ++ fracDigitsN 17 r q.den

/-- Python `repr` of a list of floats: `[1.0, 2.0, 3.0]`. -/
def listRepr (qs : List Frac) : String :=
  "[" ++ String.intercalate ", " (qs.map floatStr) ++ "]"

/-- Round a fraction to an integer, ties to even (the rounding of
Python's fixed-point float formatting). -/
def froundHalfEven (q : Frac) : Int :=
  let f := fFloor q
  let rem := q.num - f * (q.den : Int)
  if 2 * rem < (q.den : Int) then f
  else if (q.den : Int) < 2 * rem then f + 1
  else if f % 2 = 0 then f else f + 1

/-- Python `"%.2f"` / `f"{x:.2f}"` formatting. -/
def format2 (q : Frac) : String :=
  let n := froundHalfEven (fMul q ⟨100, 1⟩)
  let sign := if n < 0 then "-" else ""
  let m := n.natAbs
  let r := m % 100
  sign ++ Nat.repr (m / 100) ++ "." ++ (if r < 10 then "0" else "") ++ Nat.repr r

/-- `re.sub(r'[^0-9+\-*/.() ]', '', ...)`: the characters kept. -/
def keepChar (c : Char) : Bool :=
  c.isDigit || c == '+' || c == '-' || c == '*' || c == '/' ||
    c == '.' || c == '(' || c == ')' || c == ' '

/-- The sanitising substitution of `advanced_calculator`. -/
def sanitize (s : String) : String :=
  String.mk (s.data.filter keepChar)

/-- A Python numeric value: an int or a float, with its exact value
(for an int the denominator is 1 by construction). -/
structure PyVal where
  isInt : Bool
  val : Frac
deriving DecidableEq, Repr

/-- Tokens of a sanitised arithmetic expression. -/
inductive Tok where
  | num (isInt : Bool) (v : Frac)
  | plus
  | minus
  | star
  | slash
  | dstar
  | dslash
  | lparen
  | rparen
deriving DecidableEq, Repr

/-- An integer literal with a leading zero and a nonzero digit is a
syntax error in Python 3 (`010`), while `0`, `00` are legal. -/
def badLeadingZero (ds : List Char) : Bool :=
  match ds with
  | '0' :: rest => rest.any (fun c => c != '0')
  | _ => false

/-- Tokeniser for the sanitised character set, `none` on a syntax
error.  Fuel one more than the input length never runs out (every
step consumes at least one character). -/
def tokenizeF : Nat → List Char → Option (List Tok)
  | 0, _ => none
  | _ + 1, [] => some []
  | f + 1, c :: rest =>
    if c == ' ' then tokenizeF f rest
    else if c == '+' then (tokenizeF f rest).map (Tok.plus :: ·)
    else if c == '-' then (tokenizeF f rest).map (Tok.minus :: ·)
    else if c == '(' then (tokenizeF f rest).map (Tok.lparen :: ·)
    else if c == ')' then (tokenizeF f rest).map (Tok.rparen :: ·)
    else if c == '*' then
      match rest with
      | '*' :: r2 => (tokenizeF f r2).map (Tok.dstar :: ·)
      | _ => (tokenizeF f rest).map (Tok.star :: ·)
    else if c == '/' then
      match rest with
      | '/' :: r2 => (tokenizeF f r2).map (Tok.dslash :: ·)
      | _ => (tokenizeF f rest).map (Tok.slash :: ·)
    else if c.isDigit then
      let (ds, r1) := takeDigits (c :: rest)
      match r1 with
      | '.' :: r2 =>
        let (fs, r3) := takeDigits r2
        (tokenizeF f r3).map
          (Tok.num false ⟨digitsVal ds * 10 ^ fs.length + digitsVal fs, 10 ^ fs.length⟩ :: ·)
      | _ =>
        if badLeadingZero ds then none
        else (tokenizeF f r1).map (Tok.num true ⟨digitsVal ds, 1⟩ :: ·)
    else if c == '.' then
      if headDigit rest then
        let (fs, r2) := takeDigits rest
        (tokenizeF f r2).map (Tok.num false (fracVal fs) :: ·)
      else none
    else none

/-- Python `+`, int when both operands are ints. -/
def pyAdd (a b : PyVal) : PyVal := ⟨a.isInt && b.isInt, fAdd a.val b.val⟩

/-- Python binary `-`. -/
def pySub (a b : PyVal) : PyVal := ⟨a.isInt && b.isInt, fSub a.val b.val⟩

/-- Python `*`. -/
def pyMul (a b : PyVal) : PyVal := ⟨a.isInt && b.isInt, fMul a.val b.val⟩

/-- Python `/`: always a float, `ZeroDivisionError` on zero. -/
def pyDiv (a b : PyVal) : Option PyVal :=
  if fIsZero b.val then none else some ⟨false, fDiv a.val b.val⟩

/-- Python `//`: floor of the quotient, int on two ints. -/
def pyFloorDiv (a b : PyVal) : Option PyVal :=
  if fIsZero b.val then none
  else some ⟨a.isInt && b.isInt, ⟨fFloor (fDiv a.val b.val), 1⟩⟩

/-- Python unary `-`. -/
def pyNeg (a : PyVal) : PyVal := ⟨a.isInt, fNeg a.val⟩

/-- Python `**` for an integer exponent (a fractional exponent would
produce an irrational float and is outside the exact-fraction
model). -/
def pyPow (a b : PyVal) : Option PyVal :=
  if fIsIntVal b.val then
    if 0 ≤ fFloor b.val then
      some ⟨a.isInt && b.isInt, fPow a.val (fFloor b.val).toNat⟩
    else if fIsZero a.val then none
    else some ⟨false, fDiv ⟨1, 1⟩ (fPow a.val (-fFloor b.val).toNat)⟩
  else none
/-- Recursive-descent parser/evaluator for Python arithmetic over the
sanitised character set.  The mode selects the grammar production:
0 additive expression, 1 term, 2 factor (unary sign and power),
5 atom; 3 and 4 are the left-associative continuation loops carrying
the accumulated left operand.  Fuel bounds the recursion depth. -/
def parseP : Nat → Nat → PyVal → List Tok → Option (PyVal × List Tok)
  | 0, _, _, _ => none
  | f + 1, 0, d, ts =>
    match parseP f 1 d ts with
    | some (v, r) => parseP f 3 v r
    | none => none
  | f + 1, 1, d, ts =>
    match parseP f 2 d ts with
    | some (v, r) => parseP f 4 v r
    | none => none
  | f + 1, 2, d, ts =>
    match ts with
    | Tok.minus :: r =>
      match parseP f 2 d r with
      | some (v, r2) => some (pyNeg v, r2)
      | none => none
    | Tok.plus :: r => parseP f 2 d r
    | _ =>
      match parseP f 5 d ts with
      | some (v, r) =>
        match r with
        | Tok.dstar :: r2 =>
          match parseP f 2 d r2 with
          | some (e, r3) =>
            match pyPow v e with
            | some w => some (w, r3)
            | none => none
          | none => none
        | _ => some (v, r)
      | none => none
  | f + 1, 3, acc, ts =>
    match ts with
    | Tok.plus :: r =>
      match parseP f 1 acc r with
      | some (v, r2) => parseP f 3 (pyAdd acc v) r2
      | none => none
    | Tok.minus :: r =>
      match parseP f 1 acc r with
      | some (v, r2) => parseP f 3 (pySub acc v) r2
      | none => none
    | _ => some (acc, ts)
  | f + 1, 4, acc, ts =>
    match ts with
    | Tok.star :: r =>
      match parseP f 2 acc r with
      | some (v, r2) => parseP f 4 (pyMul acc v) r2
      | none => none
    | Tok.slash :: r =>
      match parseP f 2 acc r with
      | some (v, r2) =>
        match pyDiv acc v with
        | some w => parseP f 4 w r2
        | none => none
      | none => none
    | Tok.dslash :: r =>
      match parseP f 2 acc r with
      | some (v, r2) =>
        match pyFloorDiv acc v with
        | some w => parseP f 4 w r2
        | none => none
      | none => none
    | _ => some (acc, ts)
  | f + 1, _ + 5, d, ts =>
    match ts with
    | Tok.num b v :: r => some (⟨b, v⟩, r)
    | Tok.lparen :: r =>
      match parseP f 0 d r with
      | some (v, Tok.rparen :: r2) => some (v, r2)
      | _ => none
    | _ => none

/-- Python `eval` of a sanitised arithmetic expression: `none` models
an exception (syntax error, division by zero).  The model covers
numeric expressions; degenerate sanitised inputs whose evaluation is
not numeric (such as the empty tuple `()`) are outside it. -/
def pyEval (s : String) : Option PyVal :=
  match tokenizeF (s.data.length + 1) s.data with
  | none => none
  | some [] => none
  | some ts =>
    match parseP (4 * ts.length + 8) 0 ⟨true, ⟨0, 1⟩⟩ ts with
    | some (v, []) => some v
    | _ => none

/-- Display of an evaluation result (`str` of an int or a float). -/
def pyValStr (v : PyVal) : String :=
  if v.isInt then Int.repr v.val.num else floatStr v.val

/-- The `advanced_calculator` tool: average/sum aggregation of the
numbers matched by `-?\d+\.?\d*` when those keywords occur and numbers
were found, otherwise sanitised expression evaluation with the error
sentinel on any exception. -/
def advanced_calculator (expression : String) : String :=
  let low := lowerStr expression
  let numbers := (findNumbers expression).map numTokenVal
  if (strIn "average" low || strIn "mean" low) && !numbers.isEmpty then
    "📊 Average of " ++ listRepr numbers ++ " = " ++
      format2 (fDiv (numbers.foldl fAdd ⟨0, 1⟩) ⟨(numbers.length : Int), 1⟩)
  else if strIn "sum" low && !numbers.isEmpty then
    "📊 Sum of " ++ listRepr numbers ++ " = " ++ floatStr (numbers.foldl fAdd ⟨0, 1⟩)
  else
    match pyEval (sanitize expression) with
    | some v => "🧮 " ++ sanitize expression ++ " = " ++ pyValStr v
    | none => "❌ Error in calculation"

/-! ### The other tools, in backend-unavailable (fallback) mode -/

/-- The static knowledge base of `web_search` (a Python dict iterated
in insertion order). -/
def search_results : List (String × String) :=
  [("python programming", "Python is a high-level programming language known for its simplicity and versatility. Latest version is 3.12."),
   ("machine learning", "Machine learning is a subset of AI that enables computers to learn without explicit programming. Popular frameworks include TensorFlow and PyTorch."),
   ("climate change", "Climate change refers to long-term shifts in global temperatures and weather patterns. Human activities are the main driver since the 1800s."),
   ("artificial intelligence", "AI is intelligence demonstrated by machines, as opposed to human intelligence. It includes machine learning, natural language processing, and robotics."),
   ("data science", "Data science combines statistics, programming, and domain expertise to extract insights from data."),
   ("blockchain", "Blockchain is a distributed ledger technology that maintains a secure and decentralized record of transactions."),
   ("quantum computing", "Quantum computing uses quantum mechanical phenomena to process information in ways classical computers cannot.")]

/-- First knowledge-base entry whose topic occurs in the query
(case-insensitively), as in the `for topic, result` loop. -/
def webSearchLookup : List (String × String) → String → Option String
  | [], _ => none
  | (topic, result) :: rest, query =>
    if strIn (lowerStr topic) (lowerStr query) then some result
    else webSearchLookup rest query

/-- The `web_search` tool with no E2E client configured
(`get_e2e_client()` returns `None`): the static fallback paths. -/
def web_search (query : String) : String :=
  match webSearchLookup search_results query with
  | some r => "🔍 **Fallback Research:** " ++ r
  | none =>
    "🔍 **Fallback Research:** Found general information about " ++ quoteCh ++
      query ++ quoteCh ++
      ". This topic is actively researched with many recent developments."

/-- The `chart_types` list of `data_visualizer`. -/
def chart_types : List String :=
  ["bar chart", "line graph", "pie chart", "scatter plot"]

/-- The `data_visualizer` tool; `random.choice(chart_types)` is
modelled by the explicit index `choice`. -/
def data_visualizer (choice : Fin 4) (data_description : String) : String :=
  "📈 Created " ++ chart_types.getD choice.val "" ++ " for: " ++
    data_description ++ ". Visualization shows clear trends and patterns."

/-- The static per-style templates of `content_generator`. -/
def fallbackStyles (topic : String) : List (String × String) :=
  [("informative", "📝 Comprehensive guide on " ++ topic ++ " covering key concepts, applications, and best practices."),
   ("summary", "📋 Quick summary: " ++ topic ++ " is an important concept with significant practical applications."),
   ("technical", "🔧 Technical documentation for " ++ topic ++ " including implementation details and specifications."),
   ("creative", "✨ Creative exploration of " ++ topic ++ " from unique perspectives and innovative angles.")]

/-- The `content_generator` tool with no E2E client configured:
`styles.get(style, styles['informative'])` behind the fallback
banner. -/
def content_generator (topic style : String) : String :=
  "📝 **Fallback Content:** " ++
    (match ((fallbackStyles topic).lookup style) with
      | some t => t
      | none => "📝 Comprehensive guide on " ++ topic ++ " covering key concepts, applications, and best practices.")

/-! ### The agent executors -/

/-- `ResearchAgent.gather_information`: store the search result under
the research key. -/
def gather_information (s : AgentState) : AgentState :=
  { s with agent_results :=
      { s.agent_results with research := some (web_search s.user_query) } }

/-- A character of the class `[0-9+\-*/().\s]` (Python `\s` on ASCII
whitespace). -/
def mathClassChar (c : Char) : Bool :=
  c.isDigit || c == '+' || c == '-' || c == '*' || c == '/' ||
    c == '(' || c == ')' || c == '.' || c == ' ' || c == '\t' ||
    c == '\n' || c == '\r' || c.toNat == 11 || c.toNat == 12

/-- `re.findall(r'[0-9+\-*/().\s]+', ...)`: the maximal runs of the
class.  Fuel one more than the input length never runs out. -/
def mathRunsF : Nat → List Char → List String
  | 0, _ => []
  | _ + 1, [] => []
  | f + 1, c :: rest =>
    if mathClassChar c then
      String.mk ((c :: rest).takeWhile mathClassChar) ::
        mathRunsF f ((c :: rest).dropWhile mathClassChar)
    else mathRunsF f rest

/-- The `math_patterns` of `AnalysisAgent.process_data`. -/
def math_patterns (query : String) : List String :=
  mathRunsF (query.data.length + 1) query.data

/-- Whether a pattern contains one of `+ - * /`. -/
def hasOp (p : String) : Bool :=
  p.data.any (fun c => c == '+' || c == '-' || c == '*' || c == '/')

/-- The `viz_keywords` of `AnalysisAgent.process_data`. -/
def viz_keywords : List String := ["chart", "graph", "visualize", "plot"]

/-- `AnalysisAgent.process_data` in fallback mode: calculator results
for each operator-bearing math pattern, then the visualization message
(one random draw) when a viz keyword occurs, then the default message
when nothing was produced, joined with " | " under the analysis key. -/
def process_data (rng : Nat → Fin 4) (s : AgentState) : AgentState :=
  let query := s.user_query
  let calcResults := (math_patterns query).filterMap
    (fun p => if hasOp p then some (advanced_calculator p) else none)
  let viz := keywordHit query viz_keywords
  let results := calcResults ++
    (if viz then [data_visualizer (rng s.rngIdx) query] else [])
  let results :=
    if results.isEmpty then
      ["📊 Analysis completed: Data patterns and insights identified."]
    else results
  { s with
    agent_results := { s.agent_results with analysis := some (String.intercalate " | " results) }
    rngIdx := if viz then s.rngIdx + 1 else s.rngIdx }

/-- The content-style selection of `WritingAgent.create_content`:
first match among summary, technical, creative, else informative. -/
def selectStyle (query : String) : String :=
  if strIn "summary" (lowerStr query) then "summary"
  else if strIn "technical" (lowerStr query) then "technical"
  else if strIn "creative" (lowerStr query) then "creative"
  else "informative"

/-- `WritingAgent.create_content` in fallback mode: generate content
in the selected style, append the research findings when present,
store under the writing key. -/
def create_content (s : AgentState) : AgentState :=
  let content := content_generator s.user_query (selectStyle s.user_query)
  let content :=
    match s.agent_results.research with
    | some r => content ++ "\n\nBased on research findings: " ++ r
    | none => content
  { s with agent_results := { s.agent_results with writing := some content } }

/-! ### The LangGraph workflow -/

/-- The nodes of the compiled workflow graph (`done` is `END`). -/
inductive Node where
  | start_coordination
  | execute_research
  | execute_analysis
  | execute_writing
  | finalize_results
  | done
deriving DecidableEq, Repr

/-- The executor node for a capability tag (`f"execute_{agent_type}"`). -/
def execNode : Tag → Node
  | Tag.research => Node.execute_research
  | Tag.analysis => Node.execute_analysis
  | Tag.writing => Node.execute_writing

/-- `route_to_next_agent`: finalize when the cursor has reached the
plan length, otherwise advance the cursor past the current step and
dispatch to its executor. -/
def route_to_next_agent (s : AgentState) : Node × AgentState :=
  if h : s.current_step < s.task_plan.length then
    (execNode (s.task_plan.get ⟨s.current_step, h⟩).agent,
      { s with current_step := s.current_step + 1 })
  else (Node.finalize_results, s)

/-- `should_continue`: loop back to the coordinator while the cursor
is below the plan length, else finalize. -/
def should_continue (s : AgentState) : Node :=
  if s.current_step < s.task_plan.length then Node.start_coordination
  else Node.finalize_results

/-- A configuration of the workflow: the node about to run, with the
shared state. -/
abbrev Config := Node × AgentState

/-- One step of the compiled graph of `create_multi_agent_workflow`:
run the node's function on the shared state, then its conditional
edge. -/
def stepM (rng : Nat → Fin 4) : Config → Config
  | (Node.start_coordination, s) => route_to_next_agent (plan_task s)
  | (Node.execute_research, s) =>
    let s2 := gather_information s
    (should_continue s2, s2)
  | (Node.execute_analysis, s) =>
    let s2 := process_data rng s
    (should_continue s2, s2)
  | (Node.execute_writing, s) =>
    let s2 := create_content s
    (should_continue s2, s2)
  | (Node.finalize_results, s) => (Node.done, aggregate_results s)
  | (Node.done, s) => (Node.done, s)

/-- The initial state dict of `MultiAgentSystem.process_query`. -/
def initState (query : String) : AgentState :=
  ⟨query, [], ⟨none, none, none⟩, "", 0, 0, 0⟩

/-- The initial configuration: the graph's entry point is
`start_coordination`. -/
def initConfig (query : String) : Config :=
  (Node.start_coordination, initState query)

/-- The configuration after `n` steps of the workflow on a query. -/
def machineRun (rng : Nat → Fin 4) : Nat → String → Config
  | 0, query => initConfig query
  | n + 1, query => stepM rng (machineRun rng n query)

/-- Dispatch of one plan step to its executor. -/
def executeStep (rng : Nat → Fin 4) (s : AgentState) (ps : PlanStep) : AgentState :=
  match ps.agent with
  | Tag.research => gather_information s
  | Tag.analysis => process_data rng s
  | Tag.writing => create_content s

/-- Modelled from the spec: the plan-once simplification of §4.4 (the
spec's claimed equivalent of the re-planning loop) — compute the plan
once up front, execute every plan step in order, then aggregate.  This
is the comparator for the refinement claim; it is built from the same
source-derived planner, executors and aggregator. -/
def planOnceRun (rng : Nat → Fin 4) (query : String) : AgentState :=
  let s := plan_task (initState query)
  aggregate_results (s.task_plan.foldl (executeStep rng) s)

/-! ### Derived notions used by the verified properties -/

/-- Whether a tag's keyword list matches the query (the capability
classifier inside `plan_task`). -/
def tagHit (query : String) : Tag → Bool
  | Tag.research => keywordHit query research_keywords
  | Tag.analysis => keywordHit query analysis_keywords
  | Tag.writing => keywordHit query writing_keywords

/-- The result stored for a tag. -/
def resultOf (res : AgentResults) : Tag → Option String
  | Tag.research => res.research
  | Tag.analysis => res.analysis
  | Tag.writing => res.writing

/-- The tags with a section in the aggregated output, in the fixed
aggregation order. -/
def presentTags (res : AgentResults) : List Tag :=
  [Tag.research, Tag.analysis, Tag.writing].filter (fun t => (resultOf res t).isSome)

/-- The labeled section belonging to a tag. -/
def sectionFor : Tag → String → String
  | Tag.research => researchSection
  | Tag.analysis => analysisSection
  | Tag.writing => writingSection

/-- The tags of a query's plan, in plan order. -/
def planTags (query : String) : List Tag :=
  (planFor query).map PlanStep.agent

/-- A constant random stream drawing chart 0 ("bar chart"). -/
def zeroRng : Nat → Fin 4 := fun _ => 0

/-- A constant random stream drawing chart 1 ("line graph"). -/
def oneRng : Nat → Fin 4 := fun _ => 1

/-- Reachability in the compiled workflow graph: configurations
produced from the initial configuration of a query by finitely many
steps. -/
def ReachableFrom (rng : Nat → Fin 4) (query : String) (c : Config) : Prop :=
  Relation.ReflTransGen (fun a b => stepM rng a = b) (initConfig query) c

/-! ### Verified properties -/

/-- C2: arithmetic evaluation by `advanced_calculator` is a pure
deterministic function of the expression string (two evaluations
agree); evaluating "10 + 5" yields 15, evaluating
"average of 1,2,3,4,5" yields the value 3 formatted "3.00", and
evaluating "sum of 10,20,30" yields the numeric value 60 (displayed
"60.0" by Python float printing). -/
theorem calculator_pure_and_examples :
    (∀ e : String, advanced_calculator e = advanced_calculator e) ∧
    advanced_calculator "10 + 5" = "🧮 10 + 5 = 15" ∧
    advanced_calculator "average of 1,2,3,4,5" =
      "📊 Average of [1.0, 2.0, 3.0, 4.0, 5.0] = 3.00" ∧
    fBeq (fDiv (((findNumbers "average of 1,2,3,4,5").map numTokenVal).foldl fAdd ⟨0, 1⟩)
        ⟨5, 1⟩) ⟨3, 1⟩ = true ∧
    advanced_calculator "sum of 10,20,30" = "📊 Sum of [10.0, 20.0, 30.0] = 60.0" ∧
    fBeq (((findNumbers "sum of 10,20,30").map numTokenVal).foldl fAdd ⟨0, 1⟩) ⟨60, 1⟩ = true :=
  ⟨fun _ => rfl, rfl, rfl, rfl, rfl, rfl⟩

/-- C8: when the average and sum branches are not taken and the
evaluation of the sanitised expression raises (returns `none` in the
model), `advanced_calculator` returns the error sentinel instead of
propagating the exception. -/
theorem calculator_error_sentinel (e : String)
    (ha : ((strIn "average" (lowerStr e) || strIn "mean" (lowerStr e)) &&
      !((findNumbers e).map numTokenVal).isEmpty) = false)
    (hs : (strIn "sum" (lowerStr e) && !((findNumbers e).map numTokenVal).isEmpty) = false)
    (he : pyEval (sanitize e) = none) :
    advanced_calculator e = "❌ Error in calculation" := by
  simp [advanced_calculator, ha, hs, he]

/-- Witness for C8 at the input "average nothing": it mentions
"average" but contains no number, so it falls through to expression
evaluation, which raises on the all-spaces sanitised string. -/
theorem calculator_error_sentinel_witness :
    advanced_calculator "average nothing" = "❌ Error in calculation" :=
  calculator_error_sentinel "average nothing" rfl rfl rfl

/-- C4: when no research, analysis or writing keyword matches the
query (the classifier yields the empty capability set), `plan_task`
produces exactly the default plan [research, writing] in that order,
resets the cursor to 0 and records total_steps = 2. -/
theorem default_plan_on_no_keywords (s : AgentState)
    (hr : keywordHit s.user_query research_keywords = false)
    (ha : keywordHit s.user_query analysis_keywords = false)
    (hw : keywordHit s.user_query writing_keywords = false) :
    plan_task s = { s with
      task_plan := [⟨Tag.research, "gather_information"⟩, ⟨Tag.writing, "create_content"⟩]
      current_step := 0
      total_steps := 2 } := by
  simp [plan_task, planFor, hr, ha, hw]

/-- Witness for C4 at the keyword-free query "hello". -/
theorem default_plan_on_no_keywords_witness :
    plan_task (initState "hello") = { initState "hello" with
      task_plan := [⟨Tag.research, "gather_information"⟩, ⟨Tag.writing, "create_content"⟩]
      current_step := 0
      total_steps := 2 } :=
  default_plan_on_no_keywords (initState "hello") rfl rfl rfl

/-- C5: for every query matching at least one keyword list, the plan's
agents are exactly the matched tags in the fixed priority order
research, analysis, writing, regardless of where the keywords occur in
the query. -/
theorem plan_priority_order (s : AgentState)
    (h : (keywordHit s.user_query research_keywords || keywordHit s.user_query analysis_keywords ||
      keywordHit s.user_query writing_keywords) = true) :
    (plan_task s).task_plan.map PlanStep.agent =
      [Tag.research, Tag.analysis, Tag.writing].filter (tagHit s.user_query) := by
  cases hr : keywordHit s.user_query research_keywords <;>
  cases ha : keywordHit s.user_query analysis_keywords <;>
  cases hw : keywordHit s.user_query writing_keywords <;>
    simp [hr, ha, hw] at h ⊢ <;>
    simp [plan_task, planFor, tagHit, hr, ha, hw]

/-- Witness for C5 at "calculate 2 + 2" (analysis keywords only). -/
theorem plan_priority_order_witness :
    (plan_task (initState "calculate 2 + 2")).task_plan.map PlanStep.agent =
      [Tag.research, Tag.analysis, Tag.writing].filter
        (tagHit (initState "calculate 2 + 2").user_query) :=
  plan_priority_order (initState "calculate 2 + 2") rfl

/-- C6: aggregation is order-stable for every result mapping: the
sections list is the fixed-order traversal research, analysis, writing
of the mapping, emitting one labeled section exactly for each tag
whose result is present; in particular, for a mapping holding research
and writing but no analysis, the sections are exactly the research
section followed by the writing section (so the research section
precedes the writing section in the final string and no analysis
section occurs). -/
theorem aggregate_order_stable (s : AgentState) :
    (finalParts s.agent_results =
      [Tag.research, Tag.analysis, Tag.writing].filterMap
        (fun t => (resultOf s.agent_results t).map (sectionFor t))) ∧
    ∀ a b : String, s.agent_results.research = some a →
      s.agent_results.analysis = none → s.agent_results.writing = some b →
      finalParts s.agent_results = [researchSection a, writingSection b] ∧
      (aggregate_results s).final_result = researchSection a ++ "\n\n" ++ writingSection b := by
  constructor
  · cases hR : s.agent_results.research <;>
    cases hA : s.agent_results.analysis <;>
    cases hW : s.agent_results.writing <;>
      simp [finalParts, resultOf, sectionFor, hR, hA, hW]
  · intro a b hr hn hw
    constructor
    · simp [finalParts, hr, hn, hw]
    · simp [aggregate_results, finalParts, hr, hn, hw]
      rfl

/-- Witness for C6 at a concrete state holding research "R" and
writing "W" and no analysis result. -/
theorem aggregate_order_stable_witness :
    finalParts (AgentState.mk "q" [] ⟨some "R", none, some "W"⟩ "" 0 0 0).agent_results =
      [researchSection "R", writingSection "W"] ∧
    (aggregate_results (AgentState.mk "q" [] ⟨some "R", none, some "W"⟩ "" 0 0 0)).final_result =
      researchSection "R" ++ "\n\n" ++ writingSection "W" :=
  (aggregate_order_stable (AgentState.mk "q" [] ⟨some "R", none, some "W"⟩ "" 0 0 0)).2
    "R" "W" rfl rfl rfl

/-- C10: the Writing agent's style selection is a fixed first-match
priority chain: "summary" wins over "technical", which wins over
"creative", with "informative" as the default; in particular a query
containing both "summary" and "technical" is styled "summary". -/
theorem style_priority_chain (q : String) :
    (strIn "summary" (lowerStr q) = true → selectStyle q = "summary") ∧
    (strIn "summary" (lowerStr q) = false → strIn "technical" (lowerStr q) = true →
      selectStyle q = "technical") ∧
    (strIn "summary" (lowerStr q) = false → strIn "technical" (lowerStr q) = false →
      strIn "creative" (lowerStr q) = true → selectStyle q = "creative") ∧
    (strIn "summary" (lowerStr q) = false → strIn "technical" (lowerStr q) = false →
      strIn "creative" (lowerStr q) = false → selectStyle q = "informative") ∧
    selectStyle "Write a summary with technical detail" = "summary" := by
  refine ⟨?_, ?_, ?_, ?_, rfl⟩ <;> intros <;> simp [selectStyle, *]

/-- Aggregation writes only `final_result`; the result mapping is
unchanged. -/
theorem aggregate_keeps_results (s : AgentState) :
    (aggregate_results s).agent_results = s.agent_results := rfl

/-- C7: round-trip — planning from the query's classification,
executing every plan step, then aggregating, yields exactly one
labeled section per distinct tag of the plan (the sections list has
one entry per present tag, the present tags are duplicate-free, and a
tag has a section exactly when it occurs in the plan). -/
theorem roundtrip_sections (q : String) (rng : Nat → Fin 4) :
    (finalParts (planOnceRun rng q).agent_results).length =
      (presentTags (planOnceRun rng q).agent_results).length ∧
    (presentTags (planOnceRun rng q).agent_results).Nodup ∧
    ∀ t : Tag, t ∈ presentTags (planOnceRun rng q).agent_results ↔ t ∈ planTags q := by
  cases hr : keywordHit q research_keywords <;>
  cases ha : keywordHit q analysis_keywords <;>
  cases hw : keywordHit q writing_keywords <;>
    refine ⟨?_, ?_, fun t => ?_⟩ <;>
    simp [planOnceRun, initState, plan_task, planFor, planTags, presentTags, resultOf,
      hr, ha, hw, executeStep, gather_information, process_data, create_content, finalParts,
      aggregate_keeps_results]

/-- One workflow step preserves the cursor bound: the coordinator
resets the cursor below the fresh plan's length (or routes to
finalize), the router increments it only while strictly below the
plan length, and the executors and the aggregator touch neither the
cursor nor the plan. -/
theorem stepM_preserves_cursor (rng : Nat → Fin 4) (c : Config)
    (h : c.2.current_step ≤ c.2.task_plan.length) :
    (stepM rng c).2.current_step ≤ (stepM rng c).2.task_plan.length := by
  rcases c with ⟨n, s⟩
  cases n with
  | start_coordination =>
    simp only [stepM, route_to_next_agent]
    split
    · next h' => simpa [plan_task] using h'
    · simp [plan_task]
  | execute_research => simpa [stepM, gather_information, should_continue] using h
  | execute_analysis => simpa [stepM, process_data, should_continue] using h
  | execute_writing => simpa [stepM, create_content, should_continue] using h
  | finalize_results => simpa [stepM, aggregate_results] using h
  | done => simpa [stepM] using h

/-- C9: in every reachable configuration of the workflow the step
cursor never exceeds the plan length (`0 ≤ cursor` holds by the `Nat`
representation of the nonnegative Python counter). -/
theorem cursor_invariant (rng : Nat → Fin 4) (q : String) (c : Config)
    (h : ReachableFrom rng q c) :
    c.2.current_step ≤ c.2.task_plan.length := by
  induction h with
  | refl => simp [initConfig, initState]
  | tail _ hbc ih =>
    subst hbc
    exact stepM_preserves_cursor rng _ ih

/-- Witness for C9 at the configuration reached after three steps of
the workflow on "plot 1+1" (its one-step plan has just finalized). -/
theorem cursor_invariant_witness :
    (stepM zeroRng (stepM zeroRng (stepM zeroRng (initConfig "plot 1+1")))).2.current_step ≤
      (stepM zeroRng (stepM zeroRng (stepM zeroRng (initConfig "plot 1+1")))).2.task_plan.length :=
  cursor_invariant zeroRng "plot 1+1" _
    (Relation.ReflTransGen.tail
      (Relation.ReflTransGen.tail
        (Relation.ReflTransGen.tail Relation.ReflTransGen.refl rfl) rfl) rfl)

/-- No workflow node changes the user query. -/
theorem stepM_keeps_query (rng : Nat → Fin 4) (c : Config) :
    (stepM rng c).2.user_query = c.2.user_query := by
  rcases c with ⟨n, s⟩
  cases n with
  | start_coordination =>
    simp only [stepM, route_to_next_agent]
    split <;> simp [plan_task]
  | execute_research => simp [stepM, gather_information]
  | execute_analysis => simp [stepM, process_data]
  | execute_writing => simp [stepM, create_content]
  | finalize_results => simp [stepM, aggregate_results]
  | done => simp [stepM]

/-- The query of every configuration along a run is the input query. -/
theorem machineRun_query (rng : Nat → Fin 4) (n : Nat) (q : String) :
    (machineRun rng n q).2.user_query = q := by
  induction n with
  | zero => rfl
  | succ n ih =>
    show (stepM rng (machineRun rng n q)).2.user_query = q
    rw [stepM_keeps_query, ih]

/-- The random stream is consulted only by the analysis executor's
visualization branch, so a step is independent of it whenever the
state's query has no visualization keyword. -/
theorem stepM_rng_congr (rng rng' : Nat → Fin 4) (c : Config)
    (h : keywordHit c.2.user_query viz_keywords = false) :
    stepM rng c = stepM rng' c := by
  rcases c with ⟨n, s⟩
  cases n <;> simp [stepM, process_data, h]

/-- C3 (amended): with no completion backend configured, the workflow
is deterministic for every query containing no visualization keyword
(chart / graph / visualize / plot, case-insensitively): the entire
configuration after any number of steps — hence every per-agent result
string and the final aggregated string — is independent of the random
stream. -/
theorem fallback_rng_independent (rng rng' : Nat → Fin 4) (q : String) (n : Nat)
    (h : keywordHit q viz_keywords = false) :
    machineRun rng n q = machineRun rng' n q := by
  induction n with
  | zero => rfl
  | succ n ih =>
    show stepM rng (machineRun rng n q) = stepM rng' (machineRun rng' n q)
    rw [ih]
    exact stepM_rng_congr rng rng' _ (by rw [machineRun_query]; exact h)

/-- Witness for the amended C3: two runs of "calculate 3*3" under
different random streams coincide after five steps (the run is then
finished). -/
theorem fallback_rng_independent_witness :
    machineRun zeroRng 5 "calculate 3*3" = machineRun oneRng 5 "calculate 3*3" :=
  fallback_rng_independent zeroRng oneRng "calculate 3*3" 5 rfl

/-- Counterexample to C3 as stated: on the query "plot 1+1" (a
one-step analysis plan, completed after four workflow steps) two runs
in backend-unavailable mode that draw different chart types produce
different analysis strings and different final aggregated strings —
`random.choice` in `data_visualizer` makes fallback mode
nondeterministic. -/
theorem fallback_nondeterminism_cex :
    (machineRun zeroRng 4 "plot 1+1").2.final_result =
      "📊 **Analysis Results:**\n🧮  1+1 = 2 | 📈 Created bar chart for: plot 1+1. Visualization shows clear trends and patterns." ∧
    (machineRun oneRng 4 "plot 1+1").2.final_result =
      "📊 **Analysis Results:**\n🧮  1+1 = 2 | 📈 Created line graph for: plot 1+1. Visualization shows clear trends and patterns." ∧
    ¬ (machineRun zeroRng 4 "plot 1+1").2.final_result =
        (machineRun oneRng 4 "plot 1+1").2.final_result :=
  ⟨rfl, rfl, by decide⟩

/-- After the first executed step of "hello" (default two-step plan
[research, writing]), two further workflow steps reproduce the same
configuration: the re-entered coordinator resets the cursor to 0 and
the router re-dispatches plan step 0. -/
theorem hello_cycle : machineRun zeroRng 4 "hello" = machineRun zeroRng 2 "hello" := by decide

/-- The run of "hello" is periodic from step 2 on. -/
theorem hello_period (k : Nat) :
    machineRun zeroRng (2 + 2 * k) "hello" = machineRun zeroRng 2 "hello" := by
  induction k with
  | zero => rfl
  | succ k ih =>
    have h1 : 2 + 2 * (k + 1) = ((2 + 2 * k) + 1) + 1 := by ring
    rw [h1]
    show stepM zeroRng (stepM zeroRng (machineRun zeroRng (2 + 2 * k) "hello")) =
      machineRun zeroRng 2 "hello"
    rw [ih]
    exact hello_cycle

/-- C1 fails on the code: on the keyword-free query "hello" (default
plan [research, writing], length 2) the workflow that re-enters the
planner between agent executions never reaches `finalize_results` or
`END` — every configuration stays at `start_coordination` or
`execute_research`, because each re-entered `plan_task` resets the
cursor to 0 and the router then re-executes plan step 0 — while the
plan-once variant terminates and aggregates both plan sections. -/
theorem replan_never_finalizes :
    (∀ n : Nat, (machineRun zeroRng n "hello").1 = Node.start_coordination ∨
      (machineRun zeroRng n "hello").1 = Node.execute_research) ∧
    (finalParts (planOnceRun zeroRng "hello").agent_results).length = 2 := by
  constructor
  · intro n
    match n with
    | 0 => exact Or.inl rfl
    | 1 => exact Or.inr rfl
    | m + 2 =>
      rcases Nat.even_or_odd m with ⟨k, hk⟩ | ⟨k, hk⟩
      · subst hk
        have h2 : (k + k) + 2 = 2 + 2 * k := by ring
        rw [h2, hello_period k]
        exact Or.inl rfl
      · subst hk
        have h3 : (2 * k + 1) + 2 = (2 + 2 * k) + 1 := by ring
        rw [h3]
        show (stepM zeroRng (machineRun zeroRng (2 + 2 * k) "hello")).1 = Node.start_coordination ∨
          (stepM zeroRng (machineRun zeroRng (2 + 2 * k) "hello")).1 = Node.execute_research
        rw [hello_period k]
        exact Or.inr rfl
  · rfl
